import Mathlib

/-!
Verification of the task-lifecycle core of the Robotor repository.

The TypeScript sources are shallowly embedded: each JavaScript `Map` becomes
an association list, mutation becomes explicit state passing, and a method
that can `throw` returns `Except String _` carrying the thrown message.
-/

set_option autoImplicit false

namespace Robotor

/-! ### Association-list model of a JavaScript `Map`

`mapGet` is `Map.get` (first matching key), `mapSet` is `Map.set`
(replace in place, else append), `mapDelete` is `Map.delete`, and
`mapHas` is `Map.has`.  A `Map` holds at most one entry per key, so
`mapDelete` removing every matching entry agrees with it. -/

def mapGet {κ α : Type} [DecidableEq κ] (m : List (κ × α)) (k : κ) : Option α :=
  match m with
  | [] => none
  | (k', v) :: rest => if k' = k then some v else mapGet rest k

def mapSet {κ α : Type} [DecidableEq κ] (m : List (κ × α)) (k : κ) (v : α) :
    List (κ × α) :=
  match m with
  | [] => [(k, v)]
  | (k', v') :: rest => if k' = k then (k, v) :: rest else (k', v') :: mapSet rest k v

def mapDelete {κ α : Type} [DecidableEq κ] (m : List (κ × α)) (k : κ) :
    List (κ × α) :=
  m.filter (fun p => if p.1 = k then false else true)

def mapHas {κ α : Type} [DecidableEq κ] (m : List (κ × α)) (k : κ) : Bool :=
  (mapGet m k).isSome

theorem mapGet_mapSet_self {κ α : Type} [DecidableEq κ] (m : List (κ × α))
    (k : κ) (v : α) : mapGet (mapSet m k v) k = some v := by
  induction m with
  | nil => simp [mapGet, mapSet]
  | cons hd tl ih =>
    by_cases h : hd.1 = k
    · simp [mapGet, mapSet, h]
    · simpa [mapGet, mapSet, h] using ih

theorem mapGet_mapSet_ne {κ α : Type} [DecidableEq κ] (m : List (κ × α))
    (k k' : κ) (v : α) (h : k ≠ k') :
    mapGet (mapSet m k v) k' = mapGet m k' := by
  induction m with
  | nil => simp [mapGet, mapSet, h]
  | cons hd tl ih =>
    by_cases hh : hd.1 = k
    · simp [mapGet, mapSet, hh, h]
    · simp [mapGet, mapSet, hh, ih]

theorem mapGet_mapDelete_self {κ α : Type} [DecidableEq κ] (m : List (κ × α))
    (k : κ) : mapGet (mapDelete m k) k = none := by
  induction m with
  | nil => simp [mapGet, mapDelete]
  | cons hd tl ih =>
    by_cases h : hd.1 = k
    · simpa [mapDelete, List.filter, h] using ih
    · simpa [mapGet, mapDelete, List.filter, h] using ih

theorem mapHas_mapDelete_self {κ α : Type} [DecidableEq κ] (m : List (κ × α))
    (k : κ) : mapHas (mapDelete m k) k = false := by
  simp [mapHas, mapGet_mapDelete_self]

/-! ### Task status enum (`src/task/types/task.ts`)

Eight values: created, queued, running, paused, completed, failed,
cancelled, retrying.  `value` is the string value of the enum member,
used in interpolated error messages. -/

inductive TaskStatus where
  | created
  | queued
  | running
  | paused
  | completed
  | failed
  | cancelled
  | retrying
deriving DecidableEq

def TaskStatus.value : TaskStatus → String
  | .created => "created"
  | .queued => "queued"
  | .running => "running"
  | .paused => "paused"
  | .completed => "completed"
  | .failed => "failed"
  | .cancelled => "cancelled"
  | .retrying => "retrying"

/-- A task record as the state machine sees it: identity plus the mutable
status / timestamp fields of the `Task` interface. -/
structure Task where
  id : String
  type : String
  status : TaskStatus
  priority : Nat
  createdAt : Nat
  updatedAt : Nat
deriving DecidableEq

/-! ### TaskStateMachineImpl (`src/task/core/TaskStateMachine.ts`)

The `transitions` field is a `Map<TaskStatus, Set<TaskStatus>>`; the `Set`
is modelled as a list and `Set.has` as `List.contains`. -/

/-- The adjacency map installed by `TaskStateMachineImpl.defineTransitions`. -/
def defineTransitions : List (TaskStatus × List TaskStatus) :=
  [ (.created,   [.queued, .running, .cancelled]),
    (.queued,    [.running, .cancelled]),
    (.running,   [.completed, .failed, .cancelled, .paused]),
    (.paused,    [.running, .cancelled]),
    (.failed,    [.queued]),
    (.cancelled, [.queued]),
    (.retrying,  [.queued, .running, .cancelled]) ]

/-- `TaskStateMachineImpl.canTransition`: look up the allowed set for `src`;
a missing entry yields `false`. -/
def canTransition (transitions : List (TaskStatus × List TaskStatus))
    (src target : TaskStatus) : Bool :=
  match mapGet transitions src with
  | some allowedStates => allowedStates.contains target
  | none => false

/-- `TaskStateMachineImpl.getAllowedTransitions`: the allowed list, empty
for a state with no entry. -/
def getAllowedTransitions (transitions : List (TaskStatus × List TaskStatus))
    (status : TaskStatus) : List TaskStatus :=
  match mapGet transitions status with
  | some allowedStates => allowedStates
  | none => []

/-- `TaskStateMachineImpl.transition`: re-derives the source state from
`task.status`; throws when the edge is absent.  On success the source only
logs — the assignments `task.status = to` and `task.updatedAt = new Date()`
are commented out — so the task object is returned unchanged. -/
def stateMachineTransition (transitions : List (TaskStatus × List TaskStatus))
    (task : Task) (tgt : TaskStatus) : Except String Task :=
  let src := task.status
  if canTransition transitions src tgt then
    .ok task
  else
    .error ("Invalid state transition from " ++ src.value ++ " to " ++ tgt.value)

/-- `TaskStateMachineImpl.addTransition`. -/
def addTransition (transitions : List (TaskStatus × List TaskStatus))
    (src target : TaskStatus) : List (TaskStatus × List TaskStatus) :=
  match mapGet transitions src with
  | some allowedStates =>
    if allowedStates.contains target then transitions
    else mapSet transitions src (allowedStates ++ [target])
  | none => mapSet transitions src [target]

/-- The canonical transition table of spec section 4.2, written from the
spec's words, to be compared with `defineTransitions`. -/
def specAllowed : TaskStatus → TaskStatus → Bool
  | .created, .queued => true
  | .created, .running => true
  | .created, .cancelled => true
  | .queued, .running => true
  | .queued, .cancelled => true
  | .running, .completed => true
  | .running, .failed => true
  | .running, .cancelled => true
  | .running, .paused => true
  | .paused, .running => true
  | .paused, .cancelled => true
  | .failed, .queued => true
  | .cancelled, .queued => true
  | .retrying, .queued => true
  | .retrying, .running => true
  | .retrying, .cancelled => true
  | _, _ => false

/-- C3: for every pair of the eight task states, `canTransition` agrees with
the canonical table of spec section 4.2; `completed` has no entry in the
graph, so it has zero outgoing edges and every query from it returns false
rather than throwing. -/
theorem C3_canTransition_matches_spec_table :
    (∀ src target : TaskStatus,
      canTransition defineTransitions src target = specAllowed src target) ∧
    (∀ target : TaskStatus,
      canTransition defineTransitions .completed target = false) ∧
    getAllowedTransitions defineTransitions .completed = [] := by
  refine ⟨?_, ?_, rfl⟩
  · intro src target
    cases src <;> cases target <;> rfl
  · intro target
    cases target <;> rfl

/-- C2 counterexample: `transition` on the allowed edge created → running
succeeds, but the returned task still carries status `created` and the
original timestamp — the new status is never committed to the task. -/
theorem C2_transition_does_not_commit :
    stateMachineTransition defineTransitions
        { id := "t", type := "demo", status := .created, priority := 5,
          createdAt := 0, updatedAt := 0 } .running =
      .ok { id := "t", type := "demo", status := .created, priority := 5,
            createdAt := 0, updatedAt := 0 } ∧
    canTransition defineTransitions .created .running = true ∧
    (TaskStatus.created ≠ TaskStatus.running) := by
  exact ⟨rfl, rfl, by decide⟩

/-- C2 amended: `transition(task, to)` re-derives the source state from the
task's current status and rejects with an InvalidTransition error citing
both states when the edge is absent; on success, however, it does not
commit the new status or refresh the update timestamp — it returns with the
task unchanged (the commit lines are commented out in the source). -/
theorem C2_transition_behaviour (transitions : List (TaskStatus × List TaskStatus))
    (task : Task) (tgt : TaskStatus) :
    (canTransition transitions task.status tgt = false →
      stateMachineTransition transitions task tgt =
        .error ("Invalid state transition from " ++ task.status.value ++
                " to " ++ tgt.value)) ∧
    (canTransition transitions task.status tgt = true →
      stateMachineTransition transitions task tgt = .ok task) := by
  constructor
  · intro h
    simp [stateMachineTransition, h]
  · intro h
    simp [stateMachineTransition, h]

/-- C2 witness: both branches of `C2_transition_behaviour` instantiated on
concrete inputs. -/
theorem C2_transition_behaviour_witness :
    (stateMachineTransition defineTransitions
        { id := "t", type := "demo", status := .completed, priority := 5,
          createdAt := 0, updatedAt := 0 } .running =
      .error ("Invalid state transition from completed to running")) ∧
    (stateMachineTransition defineTransitions
        { id := "t", type := "demo", status := .queued, priority := 5,
          createdAt := 0, updatedAt := 0 } .running =
      .ok { id := "t", type := "demo", status := .queued, priority := 5,
            createdAt := 0, updatedAt := 0 }) := by
  constructor
  · exact (C2_transition_behaviour defineTransitions
      { id := "t", type := "demo", status := .completed, priority := 5,
        createdAt := 0, updatedAt := 0 } .running).1 rfl
  · exact (C2_transition_behaviour defineTransitions
      { id := "t", type := "demo", status := .queued, priority := 5,
        createdAt := 0, updatedAt := 0 } .running).2 rfl

/-! ### TaskManagerImpl (`src/task/core/TaskManager.ts`)

A stored task object carries its identity plus the outcome of each of the
behaviour methods the manager may invoke (`execute`, `cancel`, `pause`,
`resume`); the mock task produced by `createTask` always succeeds. -/

inductive ExecOutcome where
  | success (result : String)
  | failure (err : String)
deriving DecidableEq

structure TaskObj where
  id : String
  type : String
  execBehavior : ExecOutcome
  cancelBehavior : Except String Unit
  pauseBehavior : Except String Unit
  resumeBehavior : Except String Unit

/-- The three maps owned by `TaskManagerImpl`. -/
structure TaskManagerState where
  tasks : List (String × TaskObj)
  taskStates : List (String × TaskStatus)
  activeTasks : List (String × TaskObj)

def emptyTaskManager : TaskManagerState :=
  { tasks := [], taskStates := [], activeTasks := [] }

/-- `TaskManagerImpl.generateTaskId`, with `Date.now()` and the random
suffix passed in explicitly. -/
def generateTaskId (now : Nat) (rand : String) : String :=
  "task-" ++ toString now ++ "-" ++ rand

/-- `TaskManagerImpl.createTask`: mints an id, stores the mock task (whose
execute resolves successfully) and records status CREATED. -/
def managerCreateTask (st : TaskManagerState) (taskType : String)
    (now : Nat) (rand : String) : String × TaskManagerState :=
  let taskId := generateTaskId now rand
  let mockTask : TaskObj :=
    { id := taskId, type := taskType,
      execBehavior := .success ("Task " ++ taskId ++ " executed successfully"),
      cancelBehavior := .ok (), pauseBehavior := .ok (), resumeBehavior := .ok () }
  (taskId,
    { st with tasks := mapSet st.tasks taskId mockTask,
              taskStates := mapSet st.taskStates taskId .created })

/-- `TaskManagerImpl.executeTask`: NotFound on an unknown id; NotExecutable
unless the recorded status is CREATED or QUEUED; otherwise activates the
task, sets RUNNING, runs `task.execute`, records COMPLETED (returning the
result) or FAILED (rethrowing the error), and finally removes the task from
the active map. -/
def executeTask (st : TaskManagerState) (taskId : String) :
    Except String String × TaskManagerState :=
  match mapGet st.tasks taskId with
  | none => (.error ("Task " ++ taskId ++ " not found"), st)
  | some task =>
    let currentStatus := mapGet st.taskStates taskId
    if currentStatus ≠ some .created ∧ currentStatus ≠ some .queued then
      (.error ("Task " ++ taskId ++ " is not in executable state"), st)
    else
      let active := mapSet st.activeTasks taskId task
      let running := mapSet st.taskStates taskId .running
      match task.execBehavior with
      | .success result =>
        (.ok result,
          { st with taskStates := mapSet running taskId .completed,
                    activeTasks := mapDelete active taskId })
      | .failure err =>
        (.error err,
          { st with taskStates := mapSet running taskId .failed,
                    activeTasks := mapDelete active taskId })

/-- `TaskManagerImpl.cancelTask`: NotFound on an unknown id; otherwise runs
`task.cancel(reason)`, force-sets CANCELLED and drops the task from the
active map — no state-machine check. -/
def cancelTask (st : TaskManagerState) (taskId : String) (reason : Option String) :
    Except String Unit × TaskManagerState :=
  match mapGet st.tasks taskId with
  | none => (.error ("Task " ++ taskId ++ " not found"), st)
  | some task =>
    match task.cancelBehavior with
    | .error e => (.error e, st)
    | .ok _ =>
      (.ok (),
        { st with taskStates := mapSet st.taskStates taskId .cancelled,
                  activeTasks := mapDelete st.activeTasks taskId })

/-- `TaskManagerImpl.pauseTask`: NotFound on an unknown id, NotRunning
unless the recorded status is RUNNING; otherwise runs `task.pause` and sets
PAUSED. -/
def pauseTask (st : TaskManagerState) (taskId : String) :
    Except String Unit × TaskManagerState :=
  match mapGet st.tasks taskId with
  | none => (.error ("Task " ++ taskId ++ " not found"), st)
  | some task =>
    if mapGet st.taskStates taskId ≠ some .running then
      (.error ("Task " ++ taskId ++ " is not running"), st)
    else
      match task.pauseBehavior with
      | .error e => (.error e, st)
      | .ok _ =>
        (.ok (), { st with taskStates := mapSet st.taskStates taskId .paused })

/-- `TaskManagerImpl.resumeTask`: the source throws "is not paused" both for
an unknown id and for a status other than PAUSED; on success runs
`task.resume` and sets RUNNING. -/
def resumeTask (st : TaskManagerState) (taskId : String) :
    Except String Unit × TaskManagerState :=
  match mapGet st.tasks taskId with
  | none => (.error ("Task " ++ taskId ++ " is not paused"), st)
  | some task =>
    if mapGet st.taskStates taskId ≠ some .paused then
      (.error ("Task " ++ taskId ++ " is not paused"), st)
    else
      match task.resumeBehavior with
      | .error e => (.error e, st)
      | .ok _ =>
        (.ok (), { st with taskStates := mapSet st.taskStates taskId .running })

/-- `TaskManagerImpl.getTaskStatus`. -/
def getTaskStatus (st : TaskManagerState) (taskId : String) : Option TaskStatus :=
  mapGet st.taskStates taskId

/-- `TaskManagerImpl.getActiveTasks`. -/
def getActiveTasks (st : TaskManagerState) : List String :=
  st.activeTasks.map (fun p => p.1)

/-- A concrete completed task used to refute C1. -/
def completedTaskObj : TaskObj :=
  { id := "t1", type := "demo", execBehavior := .success "done",
    cancelBehavior := .ok (), pauseBehavior := .ok (), resumeBehavior := .ok () }

def completedState : TaskManagerState :=
  { tasks := [("t1", completedTaskObj)],
    taskStates := [("t1", .completed)], activeTasks := [] }

/-- C1 counterexample: on a task whose recorded status is `completed`,
`cancelTask` succeeds and commits `completed → cancelled` even though
`canTransition completed cancelled` is false — the commit is never
validated against the state machine. -/
theorem C1_cancelTask_bypasses_state_machine :
    getTaskStatus completedState "t1" = some .completed ∧
    canTransition defineTransitions .completed .cancelled = false ∧
    (cancelTask completedState "t1" none).1 = .ok () ∧
    getTaskStatus (cancelTask completedState "t1" none).2 "t1" =
      some .cancelled := by
  exact ⟨rfl, rfl, rfl, rfl⟩

/-- C1 amended: `executeTask`, `pauseTask` and `resumeTask` commit only
status changes that are allowed edges of the state machine graph — enforced
by direct status precondition checks, not by calling `canTransition` — and
the initial CREATED assignment at construction bypasses the check; but
`cancelTask` force-sets `cancelled` whatever the current status, so its
commits are not validated against the StateMachine at all. -/
theorem C1_status_commits (st : TaskManagerState) (taskId : String)
    (s s' : TaskStatus) :
    (getTaskStatus st taskId = some s →
      getTaskStatus (executeTask st taskId).2 taskId = some s' → s' ≠ s →
      canTransition defineTransitions s .running = true ∧
      canTransition defineTransitions .running s' = true) ∧
    (getTaskStatus st taskId = some s →
      getTaskStatus (pauseTask st taskId).2 taskId = some s' → s' ≠ s →
      s = .running ∧ s' = .paused ∧
      canTransition defineTransitions s s' = true) ∧
    (getTaskStatus st taskId = some s →
      getTaskStatus (resumeTask st taskId).2 taskId = some s' → s' ≠ s →
      s = .paused ∧ s' = .running ∧
      canTransition defineTransitions s s' = true) ∧
    (∀ reason, (cancelTask st taskId reason).1 = .ok () →
      getTaskStatus (cancelTask st taskId reason).2 taskId = some .cancelled) := by
  refine ⟨?_, ?_, ?_, ?_⟩
  · intro h1 h2 hne
    simp only [getTaskStatus] at h1
    simp only [executeTask, getTaskStatus] at h2
    split at h2
    · rw [h1] at h2
      exact absurd (Option.some.inj h2).symm hne
    · split at h2
      · rw [h1] at h2
        exact absurd (Option.some.inj h2).symm hne
      · rename_i task heq hc
        have hs : s = .created ∨ s = .queued := by
          rcases not_and_or.mp hc with h | h
          · left
            have hx := not_not.mp h
            rw [h1] at hx
            exact Option.some.inj hx
          · right
            have hx := not_not.mp h
            rw [h1] at hx
            exact Option.some.inj hx
        split at h2
        · simp only [getTaskStatus, mapGet_mapSet_self] at h2
          have hs' : s' = .completed := (Option.some.inj h2).symm
          rcases hs with h | h <;> subst h <;> subst hs' <;> exact ⟨rfl, rfl⟩
        · simp only [getTaskStatus, mapGet_mapSet_self] at h2
          have hs' : s' = .failed := (Option.some.inj h2).symm
          rcases hs with h | h <;> subst h <;> subst hs' <;> exact ⟨rfl, rfl⟩
  · intro h1 h2 hne
    simp only [getTaskStatus] at h1
    simp only [pauseTask, getTaskStatus] at h2
    split at h2
    · rw [h1] at h2
      exact absurd (Option.some.inj h2).symm hne
    · split at h2
      · rw [h1] at h2
        exact absurd (Option.some.inj h2).symm hne
      · rename_i task heq hc
        have hs : s = .running := by
          have hx := not_not.mp hc
          rw [h1] at hx
          exact Option.some.inj hx
        split at h2
        · rw [h1] at h2
          exact absurd (Option.some.inj h2).symm hne
        · simp only [getTaskStatus, mapGet_mapSet_self] at h2
          have hs' : s' = .paused := (Option.some.inj h2).symm
          subst hs; subst hs'
          exact ⟨rfl, rfl, rfl⟩
  · intro h1 h2 hne
    simp only [getTaskStatus] at h1
    simp only [resumeTask, getTaskStatus] at h2
    split at h2
    · rw [h1] at h2
      exact absurd (Option.some.inj h2).symm hne
    · split at h2
      · rw [h1] at h2
        exact absurd (Option.some.inj h2).symm hne
      · rename_i task heq hc
        have hs : s = .paused := by
          have hx := not_not.mp hc
          rw [h1] at hx
          exact Option.some.inj hx
        split at h2
        · rw [h1] at h2
          exact absurd (Option.some.inj h2).symm hne
        · simp only [getTaskStatus, mapGet_mapSet_self] at h2
          have hs' : s' = .running := (Option.some.inj h2).symm
          subst hs; subst hs'
          exact ⟨rfl, rfl, rfl⟩
  · intro reason hok
    simp only [cancelTask] at hok ⊢
    split at hok
    · exact absurd hok (by simp)
    · split at hok
      · exact absurd hok (by simp)
      · simp only [getTaskStatus, mapGet_mapSet_self]

/-- C1 amended witness: the execute branch of `C1_status_commits` at a
concrete created task that runs to completion. -/
theorem C1_status_commits_witness :
    canTransition defineTransitions .created .running = true ∧
    canTransition defineTransitions .running .completed = true := by
  have base := managerCreateTask emptyTaskManager "demo" 7 "abc"
  exact (C1_status_commits (managerCreateTask emptyTaskManager "demo" 7 "abc").2
    "task-7-abc" .created .completed).1 rfl rfl (by decide)

/-- C4: `executeTask` fails with NotFound (message embedding the id) on an
unknown id and with NotExecutable when the recorded status is neither
`created` nor `queued`; when accepted it returns the task's result with
status committed to `completed` on normal completion, rethrows the original
error with status `failed` on a thrown error, and in both outcomes the task
is absent from the active map afterwards. -/
theorem C4_executeTask_contract (st : TaskManagerState) (taskId : String)
    (task : TaskObj) :
    (mapGet st.tasks taskId = none →
      executeTask st taskId = (.error ("Task " ++ taskId ++ " not found"), st)) ∧
    (mapGet st.tasks taskId = some task →
      mapGet st.taskStates taskId ≠ some .created →
      mapGet st.taskStates taskId ≠ some .queued →
      executeTask st taskId =
        (.error ("Task " ++ taskId ++ " is not in executable state"), st)) ∧
    (∀ r, mapGet st.tasks taskId = some task →
      (mapGet st.taskStates taskId = some .created ∨
        mapGet st.taskStates taskId = some .queued) →
      task.execBehavior = .success r →
      (executeTask st taskId).1 = .ok r ∧
      getTaskStatus (executeTask st taskId).2 taskId = some .completed ∧
      mapGet (executeTask st taskId).2.activeTasks taskId = none) ∧
    (∀ e, mapGet st.tasks taskId = some task →
      (mapGet st.taskStates taskId = some .created ∨
        mapGet st.taskStates taskId = some .queued) →
      task.execBehavior = .failure e →
      (executeTask st taskId).1 = .error e ∧
      getTaskStatus (executeTask st taskId).2 taskId = some .failed ∧
      mapGet (executeTask st taskId).2.activeTasks taskId = none) := by
  refine ⟨?_, ?_, ?_, ?_⟩
  · intro hm
    simp only [executeTask, hm]
  · intro hm h1 h2
    simp only [executeTask, hm]
    rw [if_pos ⟨h1, h2⟩]
  · intro r hm hor hb
    have hcond : ¬(mapGet st.taskStates taskId ≠ some TaskStatus.created ∧
        mapGet st.taskStates taskId ≠ some TaskStatus.queued) := by
      rcases hor with h | h
      · exact fun hc => hc.1 h
      · exact fun hc => hc.2 h
    simp only [executeTask, hm]
    rw [if_neg hcond, hb]
    exact ⟨rfl, by simp [getTaskStatus, mapGet_mapSet_self],
      by simp [mapGet_mapDelete_self]⟩
  · intro e hm hor hb
    have hcond : ¬(mapGet st.taskStates taskId ≠ some TaskStatus.created ∧
        mapGet st.taskStates taskId ≠ some TaskStatus.queued) := by
      rcases hor with h | h
      · exact fun hc => hc.1 h
      · exact fun hc => hc.2 h
    simp only [executeTask, hm]
    rw [if_neg hcond, hb]
    exact ⟨rfl, by simp [getTaskStatus, mapGet_mapSet_self],
      by simp [mapGet_mapDelete_self]⟩

/-- A created task whose execute resolves successfully. -/
def c4SuccessTask : TaskObj :=
  { id := "t1", type := "demo", execBehavior := .success "yay",
    cancelBehavior := .ok (), pauseBehavior := .ok (), resumeBehavior := .ok () }

def c4SuccessState : TaskManagerState :=
  { tasks := [("t1", c4SuccessTask)], taskStates := [("t1", .created)],
    activeTasks := [] }

/-- A queued task whose execute throws. -/
def c4FailTask : TaskObj :=
  { id := "t1", type := "demo", execBehavior := .failure "boom",
    cancelBehavior := .ok (), pauseBehavior := .ok (), resumeBehavior := .ok () }

def c4FailState : TaskManagerState :=
  { tasks := [("t1", c4FailTask)], taskStates := [("t1", .queued)],
    activeTasks := [] }

/-- A task already completed, hence not executable. -/
def c4DoneState : TaskManagerState :=
  { tasks := [("t1", c4SuccessTask)], taskStates := [("t1", .completed)],
    activeTasks := [] }

/-- C4 witness: all four branches of `C4_executeTask_contract` at concrete
inputs. -/
theorem C4_executeTask_contract_witness :
    executeTask emptyTaskManager "zz" =
      (.error ("Task " ++ "zz" ++ " not found"), emptyTaskManager) ∧
    executeTask c4DoneState "t1" =
      (.error ("Task " ++ "t1" ++ " is not in executable state"), c4DoneState) ∧
    ((executeTask c4SuccessState "t1").1 = .ok "yay" ∧
      getTaskStatus (executeTask c4SuccessState "t1").2 "t1" = some .completed ∧
      mapGet (executeTask c4SuccessState "t1").2.activeTasks "t1" = none) ∧
    ((executeTask c4FailState "t1").1 = .error "boom" ∧
      getTaskStatus (executeTask c4FailState "t1").2 "t1" = some .failed ∧
      mapGet (executeTask c4FailState "t1").2.activeTasks "t1" = none) := by
  refine ⟨?_, ?_, ?_, ?_⟩
  · exact (C4_executeTask_contract emptyTaskManager "zz" c4SuccessTask).1 rfl
  · exact (C4_executeTask_contract c4DoneState "t1" c4SuccessTask).2.1 rfl
      (by decide) (by decide)
  · exact (C4_executeTask_contract c4SuccessState "t1" c4SuccessTask).2.2.1
      "yay" rfl (Or.inl rfl) rfl
  · exact (C4_executeTask_contract c4FailState "t1" c4FailTask).2.2.2
      "boom" rfl (Or.inr rfl) rfl

/-! ### TaskServiceRegistry (`src/task/core/ServiceRegistry.ts`)

The `services` map is `Map<string, any>`; its JavaScript values are
modelled by `JSValue`, with the engine's truthiness rules for the `if
(!service)` test in `getService`. -/

inductive JSValue where
  | undef
  | nullv
  | boolean (b : Bool)
  | number (n : Int)
  | strv (s : String)
  | object (tag : String)
deriving DecidableEq

def JSValue.truthy : JSValue → Bool
  | .undef => false
  | .nullv => false
  | .boolean b => b
  | .number n => decide (n ≠ 0)
  | .strv s => decide (s ≠ "")
  | .object _ => true

structure ServiceConfig where
  singleton : Option Bool
  dependencies : Option (List String)
  tags : Option (List String)
deriving DecidableEq

structure TaskServiceRegistry where
  services : List (String × JSValue)
  serviceConfigs : List (String × ServiceConfig)
deriving DecidableEq

def emptyServiceRegistry : TaskServiceRegistry :=
  { services := [], serviceConfigs := [] }

/-- `TaskServiceRegistry.getService`: `Map.get` yields `undefined` on a
miss, and the source throws whenever `!service` — that is, whenever the
looked-up value is falsy. -/
def getService (reg : TaskServiceRegistry) (serviceId : String) :
    Except String JSValue :=
  let service := (mapGet reg.services serviceId).getD .undef
  if service.truthy then .ok service
  else .error ("Service " ++ serviceId ++ " not found")

/-- `TaskServiceRegistry.registerService`: duplicate ids are a hard error. -/
def registerService (reg : TaskServiceRegistry) (serviceId : String)
    (service : JSValue) : Except String TaskServiceRegistry :=
  if mapHas reg.services serviceId then
    .error ("Service " ++ serviceId ++ " is already registered")
  else
    .ok { reg with services := mapSet reg.services serviceId service }

/-- `TaskServiceRegistry.unregisterService`: absent ids are a hard error;
removal also drops the attached config. -/
def unregisterService (reg : TaskServiceRegistry) (serviceId : String) :
    Except String TaskServiceRegistry :=
  if ¬ mapHas reg.services serviceId then
    .error ("Service " ++ serviceId ++ " is not registered")
  else
    .ok { reg with services := mapDelete reg.services serviceId,
                   serviceConfigs := mapDelete reg.serviceConfigs serviceId }

/-- `TaskServiceRegistry.hasService`. -/
def hasService (reg : TaskServiceRegistry) (serviceId : String) : Bool :=
  mapHas reg.services serviceId

/-- C7 counterexample: registering the falsy instance `false` under id
"flag" succeeds and the id is registered, yet `getService "flag"` raises
NotFound — the miss test is `!service`, which also fires on a registered
falsy instance, so NotFound is not raised exactly on unregistered ids. -/
theorem C7_getService_falsy_instance :
    registerService emptyServiceRegistry "flag" (.boolean false) =
      .ok { services := [("flag", .boolean false)], serviceConfigs := [] } ∧
    hasService { services := [("flag", .boolean false)], serviceConfigs := [] }
      "flag" = true ∧
    getService { services := [("flag", .boolean false)], serviceConfigs := [] }
      "flag" = .error ("Service " ++ "flag" ++ " not found") := by
  exact ⟨rfl, rfl, rfl⟩

/-- C7 amended: `registerService` fails with AlreadyRegistered on a
registered id and otherwise stores the instance; `getService` fails with
NotFound when the id is unregistered or when its stored instance is falsy,
and returns the registered instance when that instance is truthy. -/
theorem C7_serviceRegistry_contract (reg : TaskServiceRegistry)
    (serviceId : String) (v : JSValue) :
    (mapHas reg.services serviceId = true →
      registerService reg serviceId v =
        .error ("Service " ++ serviceId ++ " is already registered")) ∧
    (mapHas reg.services serviceId = false →
      registerService reg serviceId v =
        .ok { reg with services := mapSet reg.services serviceId v }) ∧
    (mapGet reg.services serviceId = none →
      getService reg serviceId =
        .error ("Service " ++ serviceId ++ " not found")) ∧
    (mapGet reg.services serviceId = some v → v.truthy = false →
      getService reg serviceId =
        .error ("Service " ++ serviceId ++ " not found")) ∧
    (mapGet reg.services serviceId = some v → v.truthy = true →
      getService reg serviceId = .ok v) := by
  refine ⟨?_, ?_, ?_, ?_, ?_⟩
  · intro h
    simp [registerService, h]
  · intro h
    simp [registerService, h]
  · intro h
    simp [getService, h, JSValue.truthy]
  · intro h ht
    simp [getService, h, ht]
  · intro h ht
    simp [getService, h, ht]

/-- C7 amended witness: every branch of `C7_serviceRegistry_contract` at
concrete inputs. -/
theorem C7_serviceRegistry_contract_witness :
    (registerService { services := [("logger", .object "log")], serviceConfigs := [] } "logger" (.object "log2") =
      .error ("Service " ++ "logger" ++ " is already registered")) ∧
    (registerService emptyServiceRegistry "logger" (.object "log") =
      .ok { services := [("logger", .object "log")], serviceConfigs := [] }) ∧
    (getService emptyServiceRegistry "logger" =
      .error ("Service " ++ "logger" ++ " not found")) ∧
    (getService { services := [("n", .number 0)], serviceConfigs := [] } "n" =
      .error ("Service " ++ "n" ++ " not found")) ∧
    (getService { services := [("logger", .object "log")], serviceConfigs := [] } "logger" = .ok (.object "log")) := by
  refine ⟨?_, ?_, ?_, ?_, ?_⟩
  · exact (C7_serviceRegistry_contract { services := [("logger", .object "log")], serviceConfigs := [] } "logger" (.object "log2")).1 rfl
  · exact (C7_serviceRegistry_contract emptyServiceRegistry "logger"
      (.object "log")).2.1 rfl
  · exact (C7_serviceRegistry_contract emptyServiceRegistry "logger"
      (.object "log")).2.2.1 rfl
  · exact (C7_serviceRegistry_contract { services := [("n", .number 0)], serviceConfigs := [] } "n" (.number 0)).2.2.2.1 rfl rfl
  · exact (C7_serviceRegistry_contract { services := [("logger", .object "log")], serviceConfigs := [] } "logger" (.object "log")).2.2.2.2 rfl rfl

/-! ### Task as produced by a TaskType factory, and TaskRegistryImpl
(`src/task/core/TaskRegistry.ts`)

`TaskType.createTask(id, inputs)` is the descriptor's factory function;
inputs are an association list of strings. -/

structure TaskType where
  name : String
  description : String
  version : String
  priority : Nat
  createTask : String → List (String × String) → Task

structure TaskTypeConfig where
  enabled : Bool
  priority : Nat
deriving DecidableEq

structure TaskRegistryImpl where
  taskTypes : List (String × TaskType)
  taskTypeConfigs : List (String × TaskTypeConfig)

def emptyTaskRegistry : TaskRegistryImpl :=
  { taskTypes := [], taskTypeConfigs := [] }

/-- `TaskRegistryImpl.register`: duplicate names are a hard error. -/
def registryRegister (reg : TaskRegistryImpl) (taskType : TaskType) :
    Except String TaskRegistryImpl :=
  if mapHas reg.taskTypes taskType.name then
    .error ("Task type " ++ taskType.name ++ " is already registered")
  else
    .ok { reg with taskTypes := mapSet reg.taskTypes taskType.name taskType }

/-- `TaskRegistryImpl.unregister`: absent names are a hard error; removal
also drops the per-type config. -/
def registryUnregister (reg : TaskRegistryImpl) (taskTypeName : String) :
    Except String TaskRegistryImpl :=
  if ¬ mapHas reg.taskTypes taskTypeName then
    .error ("Task type " ++ taskTypeName ++ " is not registered")
  else
    .ok { reg with taskTypes := mapDelete reg.taskTypes taskTypeName,
                   taskTypeConfigs := mapDelete reg.taskTypeConfigs taskTypeName }

/-- `TaskRegistryImpl.getTaskType`. -/
def getTaskType (reg : TaskRegistryImpl) (taskTypeName : String) :
    Option TaskType :=
  mapGet reg.taskTypes taskTypeName

/-- `TaskRegistryImpl.hasTaskType`. -/
def hasTaskType (reg : TaskRegistryImpl) (taskTypeName : String) : Bool :=
  mapHas reg.taskTypes taskTypeName

/-- `TaskRegistryImpl.getTaskTypeConfig`. -/
def getTaskTypeConfig (reg : TaskRegistryImpl) (taskTypeName : String) :
    Option TaskTypeConfig :=
  mapGet reg.taskTypeConfigs taskTypeName

/-- C6: registering a name already present fails with DuplicateRegistration;
unregistering an absent name fails with NotFound; a successful unregister
removes the type together with any attached per-type configuration, and
re-registering a type of the freed name then succeeds. -/
theorem C6_registry_contract (reg : TaskRegistryImpl) (tt tt' : TaskType)
    (name : String) :
    (mapHas reg.taskTypes tt.name = true →
      registryRegister reg tt =
        .error ("Task type " ++ tt.name ++ " is already registered")) ∧
    (mapHas reg.taskTypes name = false →
      registryUnregister reg name =
        .error ("Task type " ++ name ++ " is not registered")) ∧
    (mapHas reg.taskTypes name = true →
      registryUnregister reg name =
        .ok { reg with taskTypes := mapDelete reg.taskTypes name,
                       taskTypeConfigs := mapDelete reg.taskTypeConfigs name } ∧
      (∀ reg', registryUnregister reg name = .ok reg' →
        hasTaskType reg' name = false ∧
        getTaskTypeConfig reg' name = none ∧
        (tt'.name = name →
          registryRegister reg' tt' =
            .ok { reg' with
                  taskTypes := mapSet reg'.taskTypes tt'.name tt' }))) := by
  refine ⟨?_, ?_, ?_⟩
  · intro h
    simp [registryRegister, h]
  · intro h
    simp [registryUnregister, h]
  · intro h
    have hstep : registryUnregister reg name =
        .ok { reg with taskTypes := mapDelete reg.taskTypes name,
                       taskTypeConfigs := mapDelete reg.taskTypeConfigs name } := by
      simp [registryUnregister, h]
    refine ⟨hstep, ?_⟩
    intro reg' hok
    rw [hstep] at hok
    have hr : reg' = { reg with taskTypes := mapDelete reg.taskTypes name, taskTypeConfigs := mapDelete reg.taskTypeConfigs name } :=
      (Except.ok.inj hok).symm
    subst hr
    refine ⟨mapHas_mapDelete_self _ _, mapGet_mapDelete_self _ _, ?_⟩
    intro hn
    have hmiss : mapHas (mapDelete reg.taskTypes name) tt'.name = false := by
      rw [hn]
      exact mapHas_mapDelete_self _ _
    simp [registryRegister, hmiss]

/-- A minimal concrete task type for witnesses. -/
def demoTaskType (nm : String) : TaskType :=
  { name := nm, description := "demo type", version := "1.0.0", priority := 5,
    createTask := fun id _ =>
      { id := id, type := nm, status := .created, priority := 5,
        createdAt := 0, updatedAt := 0 } }

def c6Registry : TaskRegistryImpl :=
  { taskTypes := [("echo", demoTaskType "echo")],
    taskTypeConfigs := [("echo", { enabled := true, priority := 5 })] }

/-- C6 witness: all branches of `C6_registry_contract` on a registry holding
the "echo" type with an attached config. -/
theorem C6_registry_contract_witness :
    (registryRegister c6Registry (demoTaskType "echo") =
      .error ("Task type " ++ "echo" ++ " is already registered")) ∧
    (registryUnregister c6Registry "ghost" =
      .error ("Task type " ++ "ghost" ++ " is not registered")) ∧
    (registryUnregister c6Registry "echo" =
      .ok { taskTypes := mapDelete c6Registry.taskTypes "echo", taskTypeConfigs := mapDelete c6Registry.taskTypeConfigs "echo" }) ∧
    (hasTaskType { taskTypes := mapDelete c6Registry.taskTypes "echo", taskTypeConfigs := mapDelete c6Registry.taskTypeConfigs "echo" }
        "echo" = false) ∧
    (getTaskTypeConfig { taskTypes := mapDelete c6Registry.taskTypes "echo", taskTypeConfigs := mapDelete c6Registry.taskTypeConfigs "echo" }
        "echo" = none) ∧
    (registryRegister { taskTypes := mapDelete c6Registry.taskTypes "echo", taskTypeConfigs := mapDelete c6Registry.taskTypeConfigs "echo" }
        (demoTaskType "echo") =
      .ok { taskTypes := mapSet (mapDelete c6Registry.taskTypes "echo") "echo" (demoTaskType "echo"), taskTypeConfigs := mapDelete c6Registry.taskTypeConfigs "echo" }) := by
  have hmain := C6_registry_contract c6Registry (demoTaskType "echo")
    (demoTaskType "echo") "echo"
  have h3 := hmain.2.2 rfl
  refine ⟨hmain.1 rfl, ?_, h3.1, ?_, ?_, ?_⟩
  · exact (C6_registry_contract c6Registry (demoTaskType "echo")
      (demoTaskType "echo") "ghost").2.1 rfl
  · exact (h3.2 _ h3.1).1
  · exact (h3.2 _ h3.1).2.1
  · exact (h3.2 _ h3.1).2.2 rfl

/-! ### String facts used for the minted task-id keys -/

theorem string_append_assoc (a b c : String) : a ++ b ++ c = a ++ (b ++ c) :=
  String.ext (by simp [String.data_append, List.append_assoc])

theorem string_append_left_cancel (S a b : String) (h : S ++ a = S ++ b) :
    a = b := by
  have hd := congrArg String.data h
  rw [String.data_append, String.data_append] at hd
  exact String.ext (List.append_cancel_left hd)

/-! ### TaskFactoryImpl (`src/unnamed/part_002`)

The cache is keyed by the composite string `taskTypeName ++ ":" ++ id`. -/

structure TaskFactoryImpl where
  taskCache : List (String × Task)

def emptyTaskFactory : TaskFactoryImpl := { taskCache := [] }

/-- `TaskFactoryImpl.createTask`: resolves the type through the registry
(TypeNotFound on a miss), returns the cached instance when the composite
key is present, and otherwise invokes the type's factory and caches the
new task. -/
def factoryCreateTask (registry : TaskRegistryImpl) (fs : TaskFactoryImpl)
    (taskTypeName : String) (id : String) (inputs : List (String × String)) :
    Except String (Task × TaskFactoryImpl) :=
  match getTaskType registry taskTypeName with
  | none => .error ("Task type " ++ taskTypeName ++ " not found")
  | some taskType =>
    let cacheKey := taskTypeName ++ ":" ++ id
    match mapGet fs.taskCache cacheKey with
    | some cachedTask => .ok (cachedTask, fs)
    | none =>
      let task := taskType.createTask id inputs
      .ok (task, { fs with taskCache := mapSet fs.taskCache cacheKey task })

/-- `next()` of the object returned by
`TaskFactoryImpl.createTaskGenerator`: increments the captured counter and
delegates to `createTask` with the minted id. -/
def generatorNext (registry : TaskRegistryImpl) (fs : TaskFactoryImpl)
    (taskTypeName : String) (inputs : List (String × String)) (counter : Nat) :
    Except String (Task × TaskFactoryImpl × Nat) :=
  match factoryCreateTask registry fs taskTypeName
      (taskTypeName ++ "-" ++ toString (counter + 1)) inputs with
  | .error e => .error e
  | .ok (t, fs') => .ok (t, fs', counter + 1)

/-- `createBatch(count)` of the generator: `count` successive minting
calls, preserving order. -/
def generatorCreateBatch (registry : TaskRegistryImpl) (fs : TaskFactoryImpl)
    (taskTypeName : String) (inputs : List (String × String)) (counter : Nat) :
    Nat → Except String (List Task × TaskFactoryImpl × Nat)
  | 0 => .ok ([], fs, counter)
  | n + 1 =>
    match generatorNext registry fs taskTypeName inputs counter with
    | .error e => .error e
    | .ok (t, fs', counter') =>
      match generatorCreateBatch registry fs' taskTypeName inputs counter' n with
      | .error e => .error e
      | .ok (ts, fs'', cf) => .ok (t :: ts, fs'', cf)

/-- Every entry cached under a composite key of the given type carries the
id of its key — true of every cache the factory itself builds up. -/
def CacheConsistent (taskTypeName : String) (fs : TaskFactoryImpl) : Prop :=
  ∀ id t, mapGet fs.taskCache (taskTypeName ++ ":" ++ id) = some t → t.id = id

theorem factoryCreateTask_id (registry : TaskRegistryImpl)
    (fs : TaskFactoryImpl) (taskTypeName : String) (id : String)
    (inputs : List (String × String)) (tt : TaskType)
    (hreg : getTaskType registry taskTypeName = some tt)
    (hmk : ∀ i, (tt.createTask i inputs).id = i)
    (hcache : CacheConsistent taskTypeName fs) :
    ∃ t fs', factoryCreateTask registry fs taskTypeName id inputs = .ok (t, fs') ∧
      t.id = id ∧ CacheConsistent taskTypeName fs' := by
  simp only [factoryCreateTask, hreg]
  cases hc : mapGet fs.taskCache (taskTypeName ++ ":" ++ id) with
  | some cached =>
    exact ⟨cached, fs, rfl, hcache id cached hc, hcache⟩
  | none =>
    refine ⟨tt.createTask id inputs, { fs with taskCache := mapSet fs.taskCache (taskTypeName ++ ":" ++ id) (tt.createTask id inputs) }, rfl, hmk id, ?_⟩
    intro i t hget
    by_cases he : (taskTypeName ++ ":" ++ id) = (taskTypeName ++ ":" ++ i)
    · have hid : id = i := string_append_left_cancel _ _ _ he
      rw [← he, mapGet_mapSet_self] at hget
      rw [← (Option.some.inj hget), hmk id]
      exact hid
    · rw [mapGet_mapSet_ne _ _ _ _ he] at hget
      exact hcache i t hget

theorem generatorNext_ok (registry : TaskRegistryImpl) (fs : TaskFactoryImpl)
    (taskTypeName : String) (inputs : List (String × String)) (counter : Nat)
    (t : Task) (fs' : TaskFactoryImpl)
    (h : factoryCreateTask registry fs taskTypeName
        (taskTypeName ++ "-" ++ toString (counter + 1)) inputs = .ok (t, fs')) :
    generatorNext registry fs taskTypeName inputs counter =
      .ok (t, fs', counter + 1) := by
  simp only [generatorNext, h]

theorem generatorCreateBatch_cons (registry : TaskRegistryImpl)
    (fs fs' fs'' : TaskFactoryImpl) (taskTypeName : String)
    (inputs : List (String × String)) (counter n cf : Nat) (t : Task)
    (ts : List Task)
    (hnext : generatorNext registry fs taskTypeName inputs counter =
      .ok (t, fs', counter + 1))
    (htail : generatorCreateBatch registry fs' taskTypeName inputs
      (counter + 1) n = .ok (ts, fs'', cf)) :
    generatorCreateBatch registry fs taskTypeName inputs counter (n + 1) =
      .ok (t :: ts, fs'', cf) := by
  simp only [generatorCreateBatch, hnext, htail]

/-- C8: for a registered task type whose factory honours the requested id,
a fresh generator's `createBatch(3)` yields exactly three tasks with ids
`T-1`, `T-2`, `T-3` in that order, each minted by appending the next
counter value to the type name. -/
theorem C8_generator_batch_ids (registry : TaskRegistryImpl)
    (fs : TaskFactoryImpl) (taskTypeName : String)
    (inputs : List (String × String)) (tt : TaskType)
    (hreg : getTaskType registry taskTypeName = some tt)
    (hmk : ∀ i, (tt.createTask i inputs).id = i)
    (hcache : CacheConsistent taskTypeName fs) :
    ∃ t1 t2 t3 fs3,
      generatorCreateBatch registry fs taskTypeName inputs 0 3 =
        .ok ([t1, t2, t3], fs3, 3) ∧
      t1.id = taskTypeName ++ "-1" ∧
      t2.id = taskTypeName ++ "-2" ∧
      t3.id = taskTypeName ++ "-3" := by
  obtain ⟨t1, fs1, h1, hid1, hc1⟩ := factoryCreateTask_id registry fs
    taskTypeName (taskTypeName ++ "-" ++ toString (0 + 1)) inputs tt hreg hmk hcache
  obtain ⟨t2, fs2, h2, hid2, hc2⟩ := factoryCreateTask_id registry fs1
    taskTypeName (taskTypeName ++ "-" ++ toString (0 + 1 + 1)) inputs tt hreg hmk hc1
  obtain ⟨t3, fs3, h3, hid3, hc3⟩ := factoryCreateTask_id registry fs2
    taskTypeName (taskTypeName ++ "-" ++ toString (0 + 1 + 1 + 1)) inputs tt hreg hmk hc2
  have g1 := generatorNext_ok registry fs taskTypeName inputs 0 t1 fs1 h1
  have g2 := generatorNext_ok registry fs1 taskTypeName inputs (0 + 1) t2 fs2 h2
  have g3 := generatorNext_ok registry fs2 taskTypeName inputs (0 + 1 + 1) t3 fs3 h3
  have b0 : generatorCreateBatch registry fs3 taskTypeName inputs
      (0 + 1 + 1 + 1) 0 = .ok ([], fs3, 0 + 1 + 1 + 1) := rfl
  have b1 := generatorCreateBatch_cons registry fs2 fs3 fs3 taskTypeName inputs
    (0 + 1 + 1) 0 (0 + 1 + 1 + 1) t3 [] g3 b0
  have b2 := generatorCreateBatch_cons registry fs1 fs2 fs3 taskTypeName inputs
    (0 + 1) (0 + 1) (0 + 1 + 1 + 1) t2 [t3] g2 b1
  have b3 := generatorCreateBatch_cons registry fs fs1 fs3 taskTypeName inputs
    0 (0 + 1 + 1) (0 + 1 + 1 + 1) t1 [t2, t3] g1 b2
  refine ⟨t1, t2, t3, fs3, b3, ?_, ?_, ?_⟩
  · rw [hid1, string_append_assoc]
    exact congrArg (fun x => taskTypeName ++ x) (by decide)
  · rw [hid2, string_append_assoc]
    exact congrArg (fun x => taskTypeName ++ x) (by decide)
  · rw [hid3, string_append_assoc]
    exact congrArg (fun x => taskTypeName ++ x) (by decide)

def c8Registry : TaskRegistryImpl :=
  { taskTypes := [("echo", demoTaskType "echo")], taskTypeConfigs := [] }

/-- C8 witness: `C8_generator_batch_ids` on the "echo" type with an empty
factory cache. -/
theorem C8_generator_batch_ids_witness :
    ∃ t1 t2 t3 fs3,
      generatorCreateBatch c8Registry emptyTaskFactory "echo" [] 0 3 =
        .ok ([t1, t2, t3], fs3, 3) ∧
      t1.id = "echo" ++ "-1" ∧
      t2.id = "echo" ++ "-2" ∧
      t3.id = "echo" ++ "-3" := by
  exact C8_generator_batch_ids c8Registry emptyTaskFactory "echo" []
    (demoTaskType "echo") rfl (fun _ => rfl)
    (fun _ t h => Option.noConfusion h)

/-! ### The fluent builder of `TaskFactoryImpl.createTaskBuilder`
(`src/unnamed/part_002`)

The captured `id` variable starts out `undefined`; `build` throws on
`!id`, which fires both when no id was ever set and when the id is the
(falsy) empty string. -/

structure TaskBuilderState where
  id : Option String
  inputs : List (String × String)
  priority : Option Nat

/-- The builder's captured state right after `createTaskBuilder`. -/
def createTaskBuilder : TaskBuilderState :=
  { id := none, inputs := [], priority := none }

/-- `withId`. -/
def builderWithId (b : TaskBuilderState) (taskId : String) : TaskBuilderState :=
  { b with id := some taskId }

/-- `build()`: throws MissingId whenever the captured id is falsy
(`undefined` or the empty string), else delegates to `createTask`. -/
def builderBuild (registry : TaskRegistryImpl) (fs : TaskFactoryImpl)
    (taskTypeName : String) (b : TaskBuilderState) :
    Except String (Task × TaskFactoryImpl) :=
  match b.id with
  | none => .error "Task ID is required"
  | some s =>
    if s = "" then .error "Task ID is required"
    else factoryCreateTask registry fs taskTypeName s b.inputs

/-- C10: `createTaskBuilder(T).withId("").build()` fails with the MissingId
error "Task ID is required" — `build` rejects every falsy id, the empty
string as well as an id never set. -/
theorem C10_builder_rejects_falsy_id (registry : TaskRegistryImpl)
    (fs : TaskFactoryImpl) (taskTypeName : String) (b : TaskBuilderState) :
    builderBuild registry fs taskTypeName (builderWithId b "") =
      .error "Task ID is required" ∧
    builderBuild registry fs taskTypeName createTaskBuilder =
      .error "Task ID is required" := by
  exact ⟨rfl, rfl⟩

/-! ### PluginManagerImpl (`src/unnamed/part_004`)

A plugin instance is modelled by its metadata, the outcomes of its
`initialize` and `destroy` hooks, and the task types `getTaskTypes`
returns.  The outcome of `await import(pluginPath)` together with the
structural validation is abstracted by `ModuleResolution`. -/

structure TaskPlugin where
  name : String
  version : String
  description : String
  initOutcome : Except String Unit
  destroyOutcome : Except String Unit
  taskTypes : List TaskType

structure PluginConfig where
  enabled : Bool
  priority : Nat
deriving DecidableEq

inductive ModuleResolution where
  | resolveError (msg : String)
  | noPluginClass
  | invalidShape
  | plugin (p : TaskPlugin)

structure PluginManagerImpl where
  plugins : List (String × TaskPlugin)
  pluginConfigs : List (String × PluginConfig)
  registry : TaskRegistryImpl

/-- The registration loop of `loadPlugin`: registers the task types one by
one; a failure stops the loop but keeps every registration made so far. -/
def registerAllTaskTypes (reg : TaskRegistryImpl) :
    List TaskType → Except String Unit × TaskRegistryImpl
  | [] => (.ok (), reg)
  | t :: ts =>
    match registryRegister reg t with
    | .ok reg' => registerAllTaskTypes reg' ts
    | .error e => (.error e, reg)

/-- `PluginManagerImpl.loadPlugin`: every failure inside the `try` block is
rethrown wrapped as "Failed to load plugin from <path>: <cause>".  The
plugin is recorded as loaded only after initialization and after every
task type registered. -/
def loadPlugin (pm : PluginManagerImpl) (pluginPath : String)
    (resolved : ModuleResolution) : Except String Unit × PluginManagerImpl :=
  match resolved with
  | .resolveError msg =>
    (.error ("Failed to load plugin from " ++ pluginPath ++ ": " ++ msg), pm)
  | .noPluginClass =>
    (.error ("Failed to load plugin from " ++ pluginPath ++ ": " ++
      ("No plugin class found in " ++ pluginPath)), pm)
  | .invalidShape =>
    (.error ("Failed to load plugin from " ++ pluginPath ++ ": " ++
      ("Invalid plugin structure in " ++ pluginPath)), pm)
  | .plugin plugin =>
    if mapHas pm.plugins plugin.name then
      (.error ("Failed to load plugin from " ++ pluginPath ++ ": " ++
        ("Plugin " ++ plugin.name ++ " is already loaded")), pm)
    else
      match plugin.initOutcome with
      | .error e =>
        (.error ("Failed to load plugin from " ++ pluginPath ++ ": " ++ e), pm)
      | .ok _ =>
        match registerAllTaskTypes pm.registry plugin.taskTypes with
        | (.error e, reg') =>
          (.error ("Failed to load plugin from " ++ pluginPath ++ ": " ++ e),
            { pm with registry := reg' })
        | (.ok _, reg') =>
          (.ok (),
            { pm with registry := reg',
                      plugins := mapSet pm.plugins plugin.name plugin })

/-- The unregistration loop of `unloadPlugin`: unregisters each contributed
type, skipping any already removed independently. -/
def unregisterAllTaskTypes (reg : TaskRegistryImpl) :
    List TaskType → TaskRegistryImpl
  | [] => reg
  | t :: ts =>
    let reg' :=
      if hasTaskType reg t.name then
        { reg with taskTypes := mapDelete reg.taskTypes t.name,
                   taskTypeConfigs := mapDelete reg.taskTypeConfigs t.name }
      else reg
    unregisterAllTaskTypes reg' ts

/-- `PluginManagerImpl.unloadPlugin`: NotLoaded (unwrapped) on an unknown
name; otherwise `destroy()` runs first inside the `try`, so when it throws
the wrapped error propagates before any task type is unregistered or any
map entry dropped. -/
def unloadPlugin (pm : PluginManagerImpl) (pluginName : String) :
    Except String Unit × PluginManagerImpl :=
  match mapGet pm.plugins pluginName with
  | none => (.error ("Plugin " ++ pluginName ++ " is not loaded"), pm)
  | some plugin =>
    match plugin.destroyOutcome with
    | .error e =>
      (.error ("Failed to unload plugin " ++ pluginName ++ ": " ++ e), pm)
    | .ok _ =>
      (.ok (),
        { pm with registry := unregisterAllTaskTypes pm.registry plugin.taskTypes,
                  plugins := mapDelete pm.plugins pluginName,
                  pluginConfigs := mapDelete pm.pluginConfigs pluginName })

/-- `PluginManagerImpl.getLoadedPlugins`. -/
def getLoadedPlugins (pm : PluginManagerImpl) : List String :=
  pm.plugins.map (fun p => p.1)

/-- `PluginManagerImpl.getPluginConfig`. -/
def getPluginConfig (pm : PluginManagerImpl) (pluginName : String) :
    Option PluginConfig :=
  mapGet pm.pluginConfigs pluginName

theorem mapGet_mem_keys {α : Type} (m : List (String × α)) (k : String)
    (v : α) (h : mapGet m k = some v) : (m.map (fun p => p.1)).contains k = true := by
  induction m with
  | nil => simp [mapGet] at h
  | cons hd tl ih =>
    by_cases hh : hd.1 = k
    · simp [hh]
    · rw [mapGet] at h
      rw [if_neg hh] at h
      simpa using Or.inr (by simpa using ih h)

/-- A second "beta" descriptor, distinct from the plugin's own, already
occupying the name "beta" in the registry before the failing load. -/
def c5Plugin : TaskPlugin :=
  { name := "p", version := "1.0.0", description := "demo plugin",
    initOutcome := .ok (), destroyOutcome := .ok (),
    taskTypes := [demoTaskType "alpha", demoTaskType "beta"] }

def c5Manager : PluginManagerImpl :=
  { plugins := [], pluginConfigs := [],
    registry := { taskTypes := [("beta", demoTaskType "beta")],
                  taskTypeConfigs := [] } }

/-- C5 counterexample: loading a plugin contributing [alpha, beta] against
a registry already holding "beta" fails with a LoadError and the plugin is
not recorded as loaded, but "alpha" — registered before the mid-loop
failure — is left behind in the registry: the failure does leave a partial
registration. -/
theorem C5_loadPlugin_partial_registration :
    (loadPlugin c5Manager "/plugins/p.js" (.plugin c5Plugin)).1 =
      .error ("Failed to load plugin from /plugins/p.js: " ++
        "Task type beta is already registered") ∧
    mapHas (loadPlugin c5Manager "/plugins/p.js" (.plugin c5Plugin)).2.plugins
      "p" = false ∧
    hasTaskType (loadPlugin c5Manager "/plugins/p.js" (.plugin c5Plugin)).2.registry
      "alpha" = true := by
  exact ⟨rfl, rfl, rfl⟩

/-- C5 amended: every failing `loadPlugin` surfaces a LoadError of the form
"Failed to load plugin from <path>: <cause>" and leaves the plugin map and
the plugin-config map unchanged — the plugin is not recorded as loaded —
but task types registered before a mid-loop registration failure are not
rolled back from the TaskTypeRegistry. -/
theorem C5_loadPlugin_failure_state (pm : PluginManagerImpl) (path : String)
    (resolved : ModuleResolution) (e : String) :
    (loadPlugin pm path resolved).1 = .error e →
      (loadPlugin pm path resolved).2.plugins = pm.plugins ∧
      (loadPlugin pm path resolved).2.pluginConfigs = pm.pluginConfigs ∧
      ∃ cause, e = "Failed to load plugin from " ++ path ++ ": " ++ cause := by
  intro herr
  cases resolved with
  | resolveError msg =>
    exact ⟨rfl, rfl, msg, (Except.error.inj herr).symm⟩
  | noPluginClass =>
    exact ⟨rfl, rfl, "No plugin class found in " ++ path,
      (Except.error.inj herr).symm⟩
  | invalidShape =>
    exact ⟨rfl, rfl, "Invalid plugin structure in " ++ path,
      (Except.error.inj herr).symm⟩
  | plugin plugin =>
    by_cases hdup : mapHas pm.plugins plugin.name = true
    · have hL : loadPlugin pm path (.plugin plugin) =
          (.error ("Failed to load plugin from " ++ path ++ ": " ++ ("Plugin " ++ plugin.name ++ " is already loaded")), pm) := by
        simp only [loadPlugin, if_pos hdup]
      rw [hL] at herr
      rw [hL]
      exact ⟨rfl, rfl, "Plugin " ++ plugin.name ++ " is already loaded",
        (Except.error.inj herr).symm⟩
    · cases hinit : plugin.initOutcome with
      | error ei =>
        have hL : loadPlugin pm path (.plugin plugin) =
            (.error ("Failed to load plugin from " ++ path ++ ": " ++ ei), pm) := by
          simp only [loadPlugin, if_neg hdup, hinit]
        rw [hL] at herr
        rw [hL]
        exact ⟨rfl, rfl, ei, (Except.error.inj herr).symm⟩
      | ok u =>
        cases hloop : registerAllTaskTypes pm.registry plugin.taskTypes with
        | mk r reg' =>
          cases r with
          | error el =>
            have hL : loadPlugin pm path (.plugin plugin) =
                (.error ("Failed to load plugin from " ++ path ++ ": " ++ el), { pm with registry := reg' }) := by
              simp only [loadPlugin, if_neg hdup, hinit, hloop]
            rw [hL] at herr
            rw [hL]
            exact ⟨rfl, rfl, el, (Except.error.inj herr).symm⟩
          | ok u' =>
            have hL : loadPlugin pm path (.plugin plugin) =
                (.ok (), { pm with registry := reg', plugins := mapSet pm.plugins plugin.name plugin }) := by
              simp only [loadPlugin, if_neg hdup, hinit, hloop]
            rw [hL] at herr
            exact absurd herr (by simp)

/-- C5 amended witness: `C5_loadPlugin_failure_state` at the concrete
failing load of the [alpha, beta] plugin. -/
theorem C5_loadPlugin_failure_state_witness :
    (loadPlugin c5Manager "/plugins/p.js" (.plugin c5Plugin)).2.plugins =
      c5Manager.plugins ∧
    (loadPlugin c5Manager "/plugins/p.js" (.plugin c5Plugin)).2.pluginConfigs =
      c5Manager.pluginConfigs ∧
    ∃ cause, ("Failed to load plugin from /plugins/p.js: " ++
        "Task type beta is already registered") =
      "Failed to load plugin from " ++ "/plugins/p.js" ++ ": " ++ cause := by
  exact C5_loadPlugin_failure_state c5Manager "/plugins/p.js"
    (.plugin c5Plugin) _ rfl

/-- C9: when `destroy()` throws during `unloadPlugin` of a loaded plugin,
the call fails with the wrapped error and the manager is unchanged: the
plugin still appears in `getLoadedPlugins()`, its configuration is
retained, and every task type it contributed that was registered stays
registered. -/
theorem C9_unloadPlugin_destroy_failure (pm : PluginManagerImpl)
    (pluginName : String) (plugin : TaskPlugin) (e : String)
    (hloaded : mapGet pm.plugins pluginName = some plugin)
    (hdestroy : plugin.destroyOutcome = .error e) :
    unloadPlugin pm pluginName =
      (.error ("Failed to unload plugin " ++ pluginName ++ ": " ++ e), pm) ∧
    (getLoadedPlugins (unloadPlugin pm pluginName).2).contains pluginName = true ∧
    getPluginConfig (unloadPlugin pm pluginName).2 pluginName =
      getPluginConfig pm pluginName ∧
    (∀ t, t ∈ plugin.taskTypes →
      hasTaskType pm.registry t.name = true →
      hasTaskType (unloadPlugin pm pluginName).2.registry t.name = true) := by
  have hmain : unloadPlugin pm pluginName =
      (.error ("Failed to unload plugin " ++ pluginName ++ ": " ++ e), pm) := by
    simp only [unloadPlugin, hloaded, hdestroy]
  refine ⟨hmain, ?_, ?_, ?_⟩
  · rw [hmain]
    exact mapGet_mem_keys pm.plugins pluginName plugin hloaded
  · rw [hmain]
  · intro t _ ht
    rw [hmain]
    exact ht

/-- A loaded plugin whose destroy hook throws. -/
def c9Plugin : TaskPlugin :=
  { name := "p", version := "1.0.0", description := "demo plugin",
    initOutcome := .ok (), destroyOutcome := .error "destroy blew up",
    taskTypes := [demoTaskType "alpha"] }

def c9Manager : PluginManagerImpl :=
  { plugins := [("p", c9Plugin)],
    pluginConfigs := [("p", { enabled := true, priority := 5 })],
    registry := { taskTypes := [("alpha", demoTaskType "alpha")],
                  taskTypeConfigs := [] } }

/-- C9 witness: `C9_unloadPlugin_destroy_failure` on a concrete manager
whose single plugin's destroy hook throws. -/
theorem C9_unloadPlugin_destroy_failure_witness :
    unloadPlugin c9Manager "p" =
      (.error ("Failed to unload plugin " ++ "p" ++ ": " ++ "destroy blew up"),
        c9Manager) ∧
    (getLoadedPlugins (unloadPlugin c9Manager "p").2).contains "p" = true ∧
    getPluginConfig (unloadPlugin c9Manager "p").2 "p" =
      getPluginConfig c9Manager "p" ∧
    (∀ t, t ∈ c9Plugin.taskTypes →
      hasTaskType c9Manager.registry t.name = true →
      hasTaskType (unloadPlugin c9Manager "p").2.registry t.name = true) := by
  exact C9_unloadPlugin_destroy_failure c9Manager "p" c9Plugin
    "destroy blew up" rfl rfl

end Robotor
